import Mathlib

/-!
Shallow embedding of `src/controllers/attributes.controller.js` from the
NodeJS-Challenge repository: an Express controller layer over a Sequelize
store (products, categories, departments, attributes, reviews).

Stores are modelled as Lean lists of records; `findAndCountAll` is modelled
with Sequelize's semantics (count = number of matching rows ignoring
limit/offset, rows = matching rows after offset/limit); `findByPk` is a
primary-key lookup.  Handlers become pure functions from request data and
store state to an HTTP status plus a response body (and, where they write,
the new store state).  A handler that can fall through without responding
returns an `Option` response.
-/

/-- Result of Sequelize `findAndCountAll`: `count` is the total number of
matching rows (ignoring limit/offset); `rows` are the matching rows after
applying `offset` (default 0) and `limit` (absent means unbounded). -/
structure FindAndCountResult (α : Type) where
  count : Nat
  rows : List α
deriving DecidableEq

/-- Sequelize `findAndCountAll` over an already-filtered list of matching
rows, with optional `limit` and `offset` as in the controller's
`sqlQueryMap`s (an `undefined` query parameter is `none`). -/
def findAndCountAll {α : Type} (matched : List α) (lim off : Option Nat) :
    FindAndCountResult α :=
  let paged := matched.drop (off.getD 0)
  let paged := match lim with
    | some l => paged.take l
    | none => paged
  ⟨matched.length, paged⟩

/-- JavaScript `String.prototype.toLowerCase` (ASCII range, which is all the
controller's data uses). -/
def jsToLower (s : String) : String :=
  String.mk (s.data.map Char.toLower)

/-- JavaScript `s.indexOf(pat) !== -1`: `pat` occurs in `s` as a (contiguous,
case-sensitive) substring. -/
def strContains (s pat : String) : Bool :=
  (List.range (s.data.length + 1)).any (fun i => pat.data.isPrefixOf (s.data.drop i))

/-- A row of the `product` table, with the fields the controller reads and
serializes. -/
structure Product where
  product_id : Nat
  name : String
  description : String
  price : String
  discounted_price : String
  image : String
  image_2 : String
  thumbnail : String
  display : Nat
deriving DecidableEq

/-- JavaScript `JSON.stringify` applied to a retrieved product row: the JSON
object text listing every field of the record. -/
def jsonStringify (p : Product) : String :=
  "\x7b\"product_id\":" ++ toString p.product_id ++
  ",\"name\":\"" ++ p.name ++
  "\",\"description\":\"" ++ p.description ++
  "\",\"price\":\"" ++ p.price ++
  "\",\"discounted_price\":\"" ++ p.discounted_price ++
  "\",\"image\":\"" ++ p.image ++
  "\",\"image_2\":\"" ++ p.image_2 ++
  "\",\"thumbnail\":\"" ++ p.thumbnail ++
  "\",\"display\":" ++ toString p.display ++ "\x7d"

/-- Modelled from the spec: the error-message catalog (`../Error/error`,
required by the controller but not present under `src/`) is, per the spec,
"an opaque lookup keyed by error code" providing one template string per
code (`error.UsersError.USR_10`, `error.ProductError.PRD_01`,
`error.AttributeError.ATR_01`, `error.ReviewError.REV_01`,
`error.CategoryError.CAT_01`, `error.DepartmentError.DEP_02`).  Each entry
is modelled as a distinct template string. -/
def errorCatalog (code : String) : String :=
  "error-template[" ++ code ++ "]"

/-- The uniform error body the controller returns on every 404:
`\x7b error: \x7b status, code, message, field \x7d \x7d`. -/
structure ErrorBody where
  status : Nat
  code : String
  message : String
  field : String
deriving DecidableEq

/-- `paginationMeta` of the paginated envelope returned by
`ProductController.getAllProducts`. -/
structure PaginationMeta where
  currentPage : Nat
  currentPageSize : Nat
  totalPages : Nat
  totalRecords : Nat
deriving DecidableEq

/-- The paginated envelope: `paginationMeta` plus the `rows` array. -/
structure PaginatedEnvelope where
  paginationMeta : PaginationMeta
  rows : List Product
deriving DecidableEq

/-- `ProductController.getAllProducts`.  The request's `page`, `limit` and
`offset` query parameters are destructured, but the `sqlQueryMap` actually
sent to the store hard-codes `page: 1`, `limit: 1`, `totalPages: 20` and
forwards only `offset`.  The response is always 200 with the envelope. -/
def getAllProducts (store : List Product) (page lim off : Option Nat) :
    Nat × PaginatedEnvelope :=
  let sqlQueryMap_page := 1
  let sqlQueryMap_limit := 1
  let sqlQueryMap_totalPages := 20
  let products := findAndCountAll store (some sqlQueryMap_limit) off
  (200, ⟨⟨sqlQueryMap_page, sqlQueryMap_limit, sqlQueryMap_totalPages,
          products.count⟩, products.rows⟩)

/-- Body of a `searchProduct` response: a product array on success, the
uniform error body on a missing parameter. -/
inductive SearchBody where
  | products (rows : List Product)
  | err (e : ErrorBody)
deriving DecidableEq

/-- `ProductController.searchProduct`.  Inputs are the optional
`query_string` and `all_words` query parameters (`none` = `undefined`) and
the product store.  Returns the response sent (`none` when the handler
falls through every branch and sends nothing) paired with whether a store
query was issued.  Mirrors the source: `all_words` is checked first, then
`query_string`, both before the store query; `all_words` is lowercased and
compared to `on` (case-insensitive match of `query_string` against the
JSON-serialized record) and `off` (case-sensitive match against the name
field only). -/
def searchProduct (store : List Product) (query_string all_words : Option String) :
    Option (Nat × SearchBody) × Bool :=
  match all_words with
  | none =>
    (some (404, .err ⟨404, "USR_10",
      "all_words " ++ errorCatalog "USR_10", "all_words"⟩), false)
  | some aw =>
    match query_string with
    | none =>
      (some (404, .err ⟨404, "USR_10",
        "query_string " ++ errorCatalog "USR_10", "query_string"⟩), false)
    | some qs =>
      let product := findAndCountAll store none none
      if jsToLower aw = "on" then
        (some (200, .products (product.rows.filter (fun d =>
          strContains (jsToLower (jsonStringify d)) (jsToLower qs)))), true)
      else if jsToLower aw = "off" then
        (some (200, .products (product.rows.filter (fun d =>
          strContains d.name qs))), true)
      else
        (none, true)

/-- A row of the `attribute_value` table; `attribute_id` is the foreign key
to its parent attribute (the `attribute_type` association the controller
joins on). -/
structure AttributeValue where
  attribute_value_id : Nat
  attribute_id : Nat
  value : String
deriving DecidableEq

/-- Body of a `getAttributeValues` response. -/
inductive AVBody where
  | rows (l : List AttributeValue)
  | err (e : ErrorBody)
deriving DecidableEq

/-- `AttributeController.getAttributeValues`.  Runs
`AttributeValue.findAndCountAll` with an inner join on the parent attribute
whose id equals the `attribute_id` path parameter (modelled by filtering the
store on the foreign key), with the request's `limit`/`offset`.  When the
match count is 0 it returns 404 with code `ATR_01`, message
`${error.AttributeError.ATR_01} ${attribute_id}` and field `attribute_id`;
otherwise 200 with the rows. -/
def getAttributeValues (store : List AttributeValue) (attribute_id : Nat)
    (lim off : Option Nat) : Nat × AVBody :=
  let found := findAndCountAll
    (store.filter (fun v => v.attribute_id == attribute_id)) lim off
  if found.count == 0 then
    (404, .err ⟨404, "ATR_01",
      errorCatalog "ATR_01" ++ " " ++ toString attribute_id, "attribute_id"⟩)
  else
    (200, .rows found.rows)

/-- A row of the `review` table.  `review_id` is the table's own primary
key; `product_id` is the foreign key to the reviewed product; `created_on`
is the timestamp the persistence layer assigns at insert time. -/
structure Review where
  review_id : Nat
  product_id : Nat
  review : String
  rating : Nat
  customer_id : Nat
  created_on : Nat
deriving DecidableEq

/-- Sequelize `Review.findByPk`: lookup by the Review row's own primary key
`review_id`. -/
def Review.findByPk (store : List Review) (id : Nat) : Option Review :=
  store.find? (fun r => r.review_id == id)

/-- Sequelize `Product.findByPk`: lookup by primary key `product_id`. -/
def Product.findByPk (store : List Product) (id : Nat) : Option Product :=
  store.find? (fun p => p.product_id == id)

/-- Body of a `getProductReviews` response: a single review row or the
uniform error body. -/
inductive RevBody where
  | review (r : Review)
  | err (e : ErrorBody)
deriving DecidableEq

/-- `ProductController.getProductReviews`.  Calls
`Review.findByPk(product_id)` — a primary-key lookup that treats the
`product_id` path parameter as the Review's own id — returning 200 with the
single row found, else 404 with code `REV_01` and field `product_id`.
(The source's `if (product_id)` truthiness guard always passes for a routed
path segment, which is a nonempty string; it is therefore not modelled.) -/
def getProductReviews (reviews : List Review) (product_id : Nat) :
    Nat × RevBody :=
  match Review.findByPk reviews product_id with
  | some review => (200, .review review)
  | none =>
    (404, .err ⟨404, "REV_01",
      errorCatalog "REV_01" ++ " " ++ toString product_id, "product_id"⟩)

/-- State of the Review store: the persisted rows plus the primary key and
`created_on` timestamp the persistence layer will assign to the next
inserted row. -/
structure ReviewStore where
  reviews : List Review
  nextId : Nat
  now : Nat
deriving DecidableEq

/-- The `metadata` object `postProductReviews` builds from the request body
(`customer_id` is hard-coded to 0 there). -/
structure ReviewInput where
  product_id : Nat
  review : String
  rating : Nat
  customer_id : Nat
deriving DecidableEq

/-- Sequelize `Review.create(metadata)`: the store assigns the new row's
primary key and `created_on` timestamp, appends the row, and returns it. -/
def ReviewStore.create (s : ReviewStore) (m : ReviewInput) : Review × ReviewStore :=
  let r : Review := ⟨s.nextId, m.product_id, m.review, m.rating, m.customer_id, s.now⟩
  (r, ⟨s.reviews ++ [r], s.nextId + 1, s.now⟩)

/-- The 201 receipt `postProductReviews` returns: the product's name, the
echoed review text and rating, and the store-assigned `created_on`. -/
structure ReviewReceipt where
  name : String
  review : String
  rating : Nat
  created_on : Nat
deriving DecidableEq

/-- Body of a `postProductReviews` response. -/
inductive PostReviewBody where
  | receipt (r : ReviewReceipt)
  | err (e : ErrorBody)
deriving DecidableEq

/-- `ProductController.postProductReviews`.  Builds `metadata` from the
request body with `customer_id: 0`, looks the product up by primary key;
if found, inserts the review via `Review.create` and returns 201 with the
receipt (the caller supplies no `created_on`; the receipt echoes the row's
store-assigned one); otherwise returns 404 `PRD_01` without touching the
Review store.  Returns the response paired with the resulting store
state. -/
def postProductReviews (products : List Product) (s : ReviewStore)
    (body_product_id : Nat) (body_review : String) (body_rating : Nat) :
    (Nat × PostReviewBody) × ReviewStore :=
  let metadata : ReviewInput := ⟨body_product_id, body_review, body_rating, 0⟩
  match Product.findByPk products metadata.product_id with
  | some product =>
    let created := s.create metadata
    ((201, .receipt ⟨product.name, metadata.review, metadata.rating,
      created.1.created_on⟩), created.2)
  | none =>
    ((404, .err ⟨404, "PRD_01",
      errorCatalog "PRD_01" ++ " " ++ toString metadata.product_id,
      "product_id"⟩), s)

/-- A row of the `category` table. -/
structure Category where
  category_id : Nat
  department_id : Nat
  name : String
deriving DecidableEq

/-- Sequelize `Category.findByPk`: lookup by primary key `category_id`. -/
def Category.findByPk (store : List Category) (id : Nat) : Option Category :=
  store.find? (fun c => c.category_id == id)

/-- Body of a `getSingleCategory` response. -/
inductive CatBody where
  | category (c : Category)
  | err (e : ErrorBody)
deriving DecidableEq

/-- `ProductController.getSingleCategory`.  Primary-key lookup; on a miss
it returns 404 with code `CAT_01` and message
`${error.CategoryError.CAT_01}` — the bare catalog template, with no
identifier interpolated. -/
def getSingleCategory (cats : List Category) (category_id : Nat) :
    Nat × CatBody :=
  match Category.findByPk cats category_id with
  | some c => (200, .category c)
  | none =>
    (404, .err ⟨404, "CAT_01", errorCatalog "CAT_01", "category_id"⟩)

/-- Body of a `getCategoryOfProduct` response. -/
inductive CatListBody where
  | rows (l : List Category)
  | err (e : ErrorBody)
deriving DecidableEq

/-- `ProductController.getCategoryOfProduct`.  Runs
`Category.findAndCountAll` joined on the product with the given
`product_id` (modelled by filtering categories through the product-category
link table, a list of `(category_id, product_id)` pairs).  On count 0 it
returns 404 whose `code` field is `CAT_02` but whose message interpolates
`${error.CategoryError.CAT_01} ${product_id}` — the template keyed by
`CAT_01`, not `CAT_02`. -/
def getCategoryOfProduct (cats : List Category) (links : List (Nat × Nat))
    (product_id : Nat) : Nat × CatListBody :=
  let products := findAndCountAll
    (cats.filter (fun c =>
      links.any (fun e => e.1 == c.category_id && e.2 == product_id)))
    none none
  if products.count == 0 then
    (404, .err ⟨404, "CAT_02",
      errorCatalog "CAT_01" ++ " " ++ toString product_id, "product_id"⟩)
  else
    (200, .rows products.rows)

/-- A sample product-store row. -/
def sampleProduct (i : Nat) : Product :=
  ⟨i, "Product " ++ toString i, "a plain catalog item", "14.99", "0.00",
   "img.gif", "img2.gif", "thumb.gif", 2⟩

/-- A store of 45 products, the population in the spec's pagination
example. -/
def sampleProducts45 : List Product :=
  (List.range 45).map (fun i => sampleProduct (i + 1))

/-- A sample review row (primary key 3, for product 9). -/
def sampleReview : Review := ⟨3, 9, "great value", 5, 7, 1000⟩

/-- A sample Review-store state. -/
def sampleReviewStore : ReviewStore := ⟨[sampleReview], 4, 2000⟩

/-- Rows returned by `findAndCountAll` are among the matching rows it was
given (offset/limit only discard rows, never add them). -/
theorem mem_findAndCountAll_rows {α : Type} (matched : List α)
    (lim off : Option Nat) (a : α)
    (h : a ∈ (findAndCountAll matched lim off).rows) : a ∈ matched := by
  rcases lim with _ | l
  · exact List.mem_of_mem_drop (by simpa [findAndCountAll] using h)
  · exact List.mem_of_mem_drop (List.mem_of_mem_take
      (by simpa [findAndCountAll] using h))

/-- C1: on a store of 45 products, the envelope's `totalRecords` is the true
count 45, but `totalPages` is the hard-coded constant 20 — not
ceil(totalRecords / currentPageSize) — and `currentPageSize` is the
hard-coded store limit 1, not 20.  In particular `totalPages` is not 3. -/
theorem getAllProducts_totalPages_hardcoded :
    (getAllProducts sampleProducts45 none none none).2.paginationMeta.totalRecords = 45 ∧
    (getAllProducts sampleProducts45 none none none).2.paginationMeta.currentPageSize = 1 ∧
    (getAllProducts sampleProducts45 none none none).2.paginationMeta.totalPages = 20 ∧
    (getAllProducts sampleProducts45 none none none).2.paginationMeta.totalPages ≠ 3 := by
  refine ⟨?_, rfl, rfl, by decide⟩
  show sampleProducts45.length = 45
  decide

/-- C9: `getAllProducts` returns the same response whatever `page` and
`limit` the request carries (only `offset` matters), and because the store
query hard-codes `limit: 1` the returned `rows` array never holds more than
one product. -/
theorem getAllProducts_ignores_page_and_limit (store : List Product)
    (page lim off : Option Nat) :
    getAllProducts store page lim off = getAllProducts store none none off ∧
    (getAllProducts store page lim off).2.rows.length ≤ 1 := by
  refine ⟨rfl, ?_⟩
  simp [getAllProducts, findAndCountAll]

/-- C2: with both parameters present, `all_words = on` returns exactly the
retrieved products whose JSON-serialized record contains the query string
as a case-insensitive substring, and `all_words = off` returns exactly
those whose `name` field contains it as a case-sensitive literal
substring. -/
theorem searchProduct_match_semantics (store : List Product) (qs : String) :
    (∃ rows, (searchProduct store (some qs) (some "on")).1 =
        some (200, SearchBody.products rows) ∧
      ∀ p : Product, p ∈ rows ↔ p ∈ store ∧
        strContains (jsToLower (jsonStringify p)) (jsToLower qs) = true) ∧
    (∃ rows, (searchProduct store (some qs) (some "off")).1 =
        some (200, SearchBody.products rows) ∧
      ∀ p : Product, p ∈ rows ↔ p ∈ store ∧ strContains p.name qs = true) := by
  refine ⟨⟨_, rfl, fun p => ?_⟩, ⟨_, rfl, fun p => ?_⟩⟩ <;>
    simp [List.mem_filter, findAndCountAll]

/-- C10: an input on which `searchProduct` sends no response at all: both
parameters are present but `all_words` lowercases to neither `on` nor
`off`, so the handler falls through every branch (after having queried the
store) and returns without responding. -/
theorem searchProduct_fallthrough_no_response :
    (searchProduct sampleProducts45 (some "shoe") (some "maybe")).1 = none ∧
    (searchProduct sampleProducts45 (some "shoe") (some "maybe")).2 = true := by
  exact ⟨rfl, rfl⟩

/-- C7: the NotFound messages are not uniformly the catalog template of the
response's own code with the identifier interpolated: `getCategoryOfProduct`
reports code `CAT_02` while its message interpolates the `CAT_01` template,
and `getSingleCategory` interpolates no identifier at all (two different
unknown ids yield the identical message). -/
theorem notFound_message_not_keyed_by_code :
    (∃ e, (getCategoryOfProduct [] [] 7).2 = CatListBody.err e ∧
      e.code = "CAT_02" ∧
      e.message = errorCatalog "CAT_01" ++ " " ++ toString 7 ∧
      e.message ≠ errorCatalog e.code ++ " " ++ toString 7) ∧
    (getSingleCategory [] 5).2 = (getSingleCategory [] 6).2 := by
  exact ⟨⟨_, rfl, rfl, rfl, by decide⟩, rfl⟩

/-- C8: when `all_words` or `query_string` is `undefined`, `searchProduct`
responds 404 with code `USR_10` and a `field` naming the missing parameter
(`all_words` is checked first), and no store query is issued. -/
theorem searchProduct_missing_param_error (store : List Product)
    (qs aw : Option String) (h : qs = none ∨ aw = none) :
    ∃ e, (searchProduct store qs aw).1 = some (404, SearchBody.err e) ∧
      e.status = 404 ∧ e.code = "USR_10" ∧
      ((aw = none ∧ e.field = "all_words") ∨
       (qs = none ∧ e.field = "query_string")) ∧
      (searchProduct store qs aw).2 = false := by
  rcases aw with _ | aw
  · exact ⟨_, rfl, rfl, rfl, Or.inl ⟨rfl, rfl⟩, rfl⟩
  · rcases qs with _ | qs
    · exact ⟨_, rfl, rfl, rfl, Or.inr ⟨rfl, rfl⟩, rfl⟩
    · rcases h with h | h <;> exact absurd h (by simp)

/-- C8 witness: a concrete search request missing `query_string` yields the
404 `USR_10` response with `field = query_string` and no store query. -/
theorem searchProduct_missing_param_error_witness :
    ∃ e, (searchProduct sampleProducts45 none (some "on")).1 =
        some (404, SearchBody.err e) ∧
      e.status = 404 ∧ e.code = "USR_10" ∧
      ((some "on" = (none : Option String) ∧ e.field = "all_words") ∨
       ((none : Option String) = none ∧ e.field = "query_string")) ∧
      (searchProduct sampleProducts45 none (some "on")).2 = false :=
  searchProduct_missing_param_error sampleProducts45 none (some "on") (Or.inl rfl)

/-- C5: `getAttributeValues` responds 200 whenever some stored attribute
value belongs to the requested attribute; any rows it ever returns all have
that parent `attribute_id`; and when no stored value belongs to it, it
responds 404 with code `ATR_01` on field `attribute_id`. -/
theorem getAttributeValues_filter_or_notfound (store : List AttributeValue)
    (aid : Nat) (lim off : Option Nat) :
    ((∃ v ∈ store, v.attribute_id = aid) →
      (getAttributeValues store aid lim off).1 = 200) ∧
    (∀ rows, (getAttributeValues store aid lim off).2 = AVBody.rows rows →
      ∀ v ∈ rows, v.attribute_id = aid) ∧
    ((∀ v ∈ store, v.attribute_id ≠ aid) →
      getAttributeValues store aid lim off = (404, AVBody.err
        ⟨404, "ATR_01", errorCatalog "ATR_01" ++ " " ++ toString aid,
         "attribute_id"⟩)) := by
  refine ⟨?_, ?_, ?_⟩
  · rintro ⟨v, hv, ha⟩
    have hmem : v ∈ store.filter (fun w => w.attribute_id == aid) :=
      List.mem_filter.mpr ⟨hv, by simp [ha]⟩
    have hcond : ((store.filter (fun w => w.attribute_id == aid)).length == 0)
        = false := by
      simp [List.length_eq_zero]
      exact ⟨v, hv, ha⟩
    simp [getAttributeValues, findAndCountAll, hcond]
  · intro rows hrows v hvr
    by_cases hc : ((store.filter (fun w => w.attribute_id == aid)).length == 0)
        = true
    · simp [getAttributeValues, findAndCountAll, hc] at hrows
    · have hc' : ((store.filter (fun w => w.attribute_id == aid)).length == 0)
          = false := by simpa using hc
      simp [getAttributeValues, findAndCountAll, hc'] at hrows
      have hvf : v ∈ store.filter (fun w => w.attribute_id == aid) :=
        mem_findAndCountAll_rows _ lim off v
          (by simpa [findAndCountAll, hrows] using hvr)
      simpa using (List.mem_filter.mp hvf).2
  · intro h
    have hnil : store.filter (fun w => w.attribute_id == aid) = [] :=
      List.filter_eq_nil_iff.mpr (fun v hv => by simp [h v hv])
    simp [getAttributeValues, findAndCountAll, hnil]

/-- C5 witness: on a concrete store, attribute 2 (one associated value)
yields 200 and only rows of attribute 2, while attribute 9 (no associated
values) yields the 404 `ATR_01` error. -/
theorem getAttributeValues_filter_or_notfound_witness :
    (getAttributeValues [⟨1, 2, "M"⟩, ⟨2, 3, "Red"⟩] 2 none none).1 = 200 ∧
    (∀ rows, (getAttributeValues [⟨1, 2, "M"⟩, ⟨2, 3, "Red"⟩] 2 none none).2 =
        AVBody.rows rows → ∀ v ∈ rows, v.attribute_id = 2) ∧
    getAttributeValues [⟨1, 2, "M"⟩, ⟨2, 3, "Red"⟩] 9 none none =
      (404, AVBody.err ⟨404, "ATR_01",
        errorCatalog "ATR_01" ++ " " ++ toString 9, "attribute_id"⟩) :=
  ⟨(getAttributeValues_filter_or_notfound [⟨1, 2, "M"⟩, ⟨2, 3, "Red"⟩]
      2 none none).1 ⟨⟨1, 2, "M"⟩, by decide, rfl⟩,
   (getAttributeValues_filter_or_notfound [⟨1, 2, "M"⟩, ⟨2, 3, "Red"⟩]
      2 none none).2.1,
   (getAttributeValues_filter_or_notfound [⟨1, 2, "M"⟩, ⟨2, 3, "Red"⟩]
      9 none none).2.2 (by decide)⟩

/-- C6: `getProductReviews` performs a primary-key lookup that compares the
`product_id` path parameter with each Review's own `review_id`: it returns
200 with the single row found, and otherwise the 404 `REV_01` error on
field `product_id`. -/
theorem getProductReviews_pk_lookup (reviews : List Review) (pid : Nat) :
    (∀ r, reviews.find? (fun x => x.review_id == pid) = some r →
      getProductReviews reviews pid = (200, RevBody.review r)) ∧
    (reviews.find? (fun x => x.review_id == pid) = none →
      getProductReviews reviews pid = (404, RevBody.err
        ⟨404, "REV_01", errorCatalog "REV_01" ++ " " ++ toString pid,
         "product_id"⟩)) := by
  constructor
  · intro r h
    simp [getProductReviews, Review.findByPk, h]
  · intro h
    simp [getProductReviews, Review.findByPk, h]

/-- C6 witness: the store holds one review whose own id is 3 and whose
`product_id` is 9; requesting product 3 returns that review (the lookup is
by the review's own id), and requesting product 9 returns the 404. -/
theorem getProductReviews_pk_lookup_witness :
    getProductReviews [sampleReview] 3 = (200, RevBody.review sampleReview) ∧
    getProductReviews [sampleReview] 9 = (404, RevBody.err
      ⟨404, "REV_01", errorCatalog "REV_01" ++ " " ++ toString 9,
       "product_id"⟩) :=
  ⟨(getProductReviews_pk_lookup [sampleReview] 3).1 sampleReview (by decide),
   (getProductReviews_pk_lookup [sampleReview] 9).2 (by decide)⟩

/-- C3: when the body's `product_id` resolves to no product,
`postProductReviews` responds 404 with code `PRD_01` on field `product_id`
and the Review store is returned unchanged — no write happens. -/
theorem postProductReviews_missing_product (products : List Product)
    (s : ReviewStore) (pid : Nat) (rv : String) (rt : Nat)
    (h : Product.findByPk products pid = none) :
    postProductReviews products s pid rv rt =
      ((404, PostReviewBody.err ⟨404, "PRD_01",
        errorCatalog "PRD_01" ++ " " ++ toString pid, "product_id"⟩), s) := by
  simp [postProductReviews, h]

/-- C3 witness: posting a review for the absent product 2 against a store
holding only product 1 yields the 404 `PRD_01` response and leaves the
Review store state untouched. -/
theorem postProductReviews_missing_product_witness :
    postProductReviews [sampleProduct 1] sampleReviewStore 2 "bad" 1 =
      ((404, PostReviewBody.err ⟨404, "PRD_01",
        errorCatalog "PRD_01" ++ " " ++ toString 2, "product_id"⟩),
       sampleReviewStore) :=
  postProductReviews_missing_product [sampleProduct 1] sampleReviewStore
    2 "bad" 1 (by decide)

/-- C4: when the body's `product_id` resolves to product `p`,
`postProductReviews` responds 201 with a receipt whose `name` is `p.name`,
whose review text and rating echo the request body, and whose `created_on`
is the store-assigned timestamp `s.now` (the caller supplies none); the row
appended to the Review store carries the sentinel `customer_id = 0` and
that same store-assigned `created_on`. -/
theorem postProductReviews_existing_product (products : List Product)
    (s : ReviewStore) (pid : Nat) (rv : String) (rt : Nat) (p : Product)
    (h : Product.findByPk products pid = some p) :
    postProductReviews products s pid rv rt =
      ((201, PostReviewBody.receipt ⟨p.name, rv, rt, s.now⟩),
       ⟨s.reviews ++ [⟨s.nextId, pid, rv, rt, 0, s.now⟩],
        s.nextId + 1, s.now⟩) := by
  simp [postProductReviews, ReviewStore.create, h]

/-- C4 witness: posting a review for the existing product 1 yields 201 with
the product's name, the echoed body, the store clock as `created_on`, and
appends the sentinel-customer row to the store. -/
theorem postProductReviews_existing_product_witness :
    postProductReviews [sampleProduct 1] sampleReviewStore 1 "nice" 4 =
      ((201, PostReviewBody.receipt
        ⟨(sampleProduct 1).name, "nice", 4, sampleReviewStore.now⟩),
       ⟨sampleReviewStore.reviews ++
          [⟨sampleReviewStore.nextId, 1, "nice", 4, 0, sampleReviewStore.now⟩],
        sampleReviewStore.nextId + 1, sampleReviewStore.now⟩) :=
  postProductReviews_existing_product [sampleProduct 1] sampleReviewStore
    1 "nice" 4 (sampleProduct 1) (by decide)
